import Mathlib

/-!
Verification of the expression-evaluation engine of the schwift interpreter
(src/expression.rs) against its natural-language specification.

The evaluator itself (`Expression::evaluate`, `try_bool`, `try_int`) is
embedded directly from src/expression.rs.  Its collaborators (the Value
methods, the State environment, the external parser and the error taxonomy)
live in files of the repository that are not part of the excerpt, so they are
modelled from the specification: State, the parser and the non-Equality
operator methods are kept fully abstract (records of arbitrary functions), so
every theorem quantified over them holds for every behaviour the spec admits.
-/

namespace Schwift

/-- Modelled from the spec: the queryable type tag of runtime values
(value::Type from value.rs, not under src/); spec section 3 gives the closed
kind set integer, boolean, string, list. -/
inductive ValueType where
  | Int
  | Bool
  | Str
  | List
deriving DecidableEq

/-- Modelled from the spec: IntT, the runtime integer type (value.rs, not
under src/); the spec states an "integer" kind with no width, modelled as
unbounded integers. -/
abbrev IntT := Int

/-- Alias for the builtin booleans, usable inside the Value namespace where
the bare name is shadowed by a constructor. -/
abbrev BoolT := Bool

/-- Alias for the builtin lists, usable inside the Value namespace where the
bare name is shadowed by a constructor. -/
abbrev ListT := List

/-- Modelled from the spec: the runtime Value type (value.rs, not under
src/); spec section 3: "a closed set of kinds (at minimum: integer, boolean,
string, list-of-Value)". -/
inductive Value where
  | Int (i : IntT)
  | Bool (b : Bool)
  | Str (s : String)
  | List (l : List Value)

/-- Modelled from the spec: the queryable type tag of a value (value.rs, not
under src/). -/
def Value.get_type : Value → ValueType
  | .Int _ => .Int
  | .Bool _ => .Bool
  | .Str _ => .Str
  | .List _ => .List

mutual

/-- Modelled from the spec: structural comparison of values (value.rs, not
under src/); spec section 3: "Values are structurally comparable". -/
def Value.beq : Value → Value → BoolT
  | .Int a, .Int b => a == b
  | .Bool a, .Bool b => a == b
  | .Str a, .Str b => a == b
  | .List a, .List b => Value.beqList a b
  | _, _ => false

/-- Modelled from the spec: elementwise structural comparison of value
lists. -/
def Value.beqList : ListT Value → ListT Value → BoolT
  | [], [] => true
  | x :: xs, y :: ys => Value.beq x y && Value.beqList xs ys
  | _, _ => false

end

/-- Modelled from the spec: Value::equals (value.rs, not under src/); spec
section 6: "equals, which is total and returns a plain boolean value", spec
section 4.1: false across mismatched kinds, structural truth on matching
kinds. -/
def Value.equals (a b : Value) : Value := .Bool (Value.beq a b)

/-- Modelled from the spec: the error taxonomy (error.rs, not under src/);
spec section 7.  The environment-level constructors stand for the errors
"defined and owned by State".  StackOverflow models the host call-stack
exhaustion that spec section 5 says terminates unbounded recursion. -/
inductive SwError where
  | UnexpectedType (expected : ValueType) (actual : ValueType)
  | IndexUnindexable (actual : ValueType)
  | SyntaxError (msg : String)
  | UndefinedVariable (name : String)
  | UnknownFunction (name : String)
  | IndexOutOfBounds (idx : IntT)
  | StackOverflow
deriving DecidableEq

/-- Modelled from the spec: Value::not (value.rs, not under src/); spec
section 4.1: Not "requires a boolean kind, fails with a type-mismatch error
otherwise; produces an owned boolean". -/
def Value.not : Value → Except SwError Value
  | .Bool b => .ok (.Bool (!b))
  | v => .error (.UnexpectedType .Bool v.get_type)

/-- Operator, the closed enum referenced by src/expression.rs (declaration
not under src/); spec section 3 lists these fourteen variants, matching the
dispatch at src/expression.rs lines 38 to 53. -/
inductive Operator where
  | Add
  | Subtract
  | Multiply
  | Divide
  | Equality
  | LessThan
  | GreaterThan
  | LessThanEqual
  | GreaterThanEqual
  | ShiftLeft
  | ShiftRight
  | And
  | Or
  | Modulus
deriving DecidableEq

/-- Expression, embedded from src/expression.rs lines 10 to 20. -/
inductive Expression where
  | Variable (name : String)
  | OpExp (left : Expression) (op : Operator) (right : Expression)
  | Value (v : Value)
  | ListIndex (name : String) (index : Expression)
  | ListLength (name : String)
  | Not (e : Expression)
  | Eval (e : Expression)
  | FunctionCall (name : String) (args : List Expression)

/-- Model of std::borrow::Cow over Value as used by evaluate: either a
borrowed reference into the state or a freshly computed owned value. -/
inductive Cow where
  | Borrowed (v : Value)
  | Owned (v : Value)

/-- Dereferencing a Cow yields the underlying value. -/
def Cow.value : Cow → Value
  | .Borrowed v => v
  | .Owned v => v

/-- Model of Cow::into_owned: the underlying value, cloning a borrow. -/
def Cow.into_owned : Cow → Value := Cow.value

/-- Modelled from the spec: the State collaborator (state.rs, not under
src/); spec section 6 boundary contract: get, list_index (which owns the
bounds and type checking for indexing), call_function (which owns argument
evaluation policy).  An arbitrary record of functions, so every theorem
quantified over a State holds for every behaviour the spec admits. -/
structure State where
  get : String → Except SwError Value
  list_index : String → Expression → Except SwError Cow
  call_function : String → List Expression → Except SwError Value

/-- Modelled from the spec: the Value operator methods (value.rs, not under
src/); spec section 3: each Operator "maps to exactly one Value method; the
mapping is total"; spec section 6: "each arithmetic/comparison/logical method
returns Result<Value, ValueError>" except equals.  Kept abstract as a record
of arbitrary total functions. -/
structure ValueOps where
  add : Value → Value → Except SwError Value
  subtract : Value → Value → Except SwError Value
  multiply : Value → Value → Except SwError Value
  divide : Value → Value → Except SwError Value
  less_than : Value → Value → Except SwError Value
  greater_than : Value → Value → Except SwError Value
  less_than_equal : Value → Value → Except SwError Value
  greater_than_equal : Value → Value → Except SwError Value
  shift_left : Value → Value → Except SwError Value
  shift_right : Value → Value → Except SwError Value
  and : Value → Value → Except SwError Value
  or : Value → Value → Except SwError Value
  modulus : Value → Value → Except SwError Value

/-- Modelled from the spec: the external parser grammar::expression (not
under src/); spec section 6: "a function from source text to
Result<Expression, SyntaxErrorMessage>". -/
abbrev GrammarFn := String → Except String Expression

/-- The operator dispatch of Expression::evaluate, src/expression.rs lines
38 to 53: each operator invokes its Value method on the two operands;
Equality alone is wrapped in Ok because equals is total. -/
def opApply (ops : ValueOps) (op : Operator) (l r : Value) :
    Except SwError Value :=
  match op with
  | .Add => ops.add l r
  | .Subtract => ops.subtract l r
  | .Multiply => ops.multiply l r
  | .Divide => ops.divide l r
  | .Equality => .ok (Value.equals l r)
  | .LessThan => ops.less_than l r
  | .GreaterThan => ops.greater_than l r
  | .LessThanEqual => ops.less_than_equal l r
  | .GreaterThanEqual => ops.greater_than_equal l r
  | .ShiftLeft => ops.shift_left l r
  | .ShiftRight => ops.shift_right l r
  | .And => ops.and l r
  | .Or => ops.or l r
  | .Modulus => ops.modulus l r

/-- Expression::evaluate, embedded from src/expression.rs lines 32 to 90.
The Rust recursion is bounded only by the host call stack (spec section 5);
the fuel parameter models that stack, one unit per recursive frame, with
exhaustion surfacing as SwError.StackOverflow. -/
def Expression.evaluate (ops : ValueOps) (gp : GrammarFn) (st : State) :
    Nat → Expression → Except SwError Cow
  | 0, _ => .error .StackOverflow
  | fuel + 1, exp =>
    match exp with
    | .Variable name => (st.get name).map Cow.Borrowed
    | .OpExp left_exp op right_exp =>
      (Expression.evaluate ops gp st fuel left_exp).bind fun left =>
        (Expression.evaluate ops gp st fuel right_exp).bind fun right =>
          (opApply ops op left.value right.value).map Cow.Owned
    | .Value v => .ok (.Borrowed v)
    | .ListIndex var_name e => st.list_index var_name e
    | .Not e =>
      (Expression.evaluate ops gp st fuel e).bind fun v =>
        (Value.not v.value).map Cow.Owned
    | .ListLength var_name =>
      (st.get var_name).bind fun value =>
        match value with
        | .List list => .ok (.Owned (.Int (Int.ofNat list.length)))
        | .Str s => .ok (.Owned (.Int (Int.ofNat s.utf8ByteSize)))
        | v => .error (.IndexUnindexable v.get_type)
    | .Eval exp =>
      (Expression.evaluate ops gp st fuel exp).bind fun inner_val =>
        match inner_val.value with
        | .Str inner =>
          match gp inner with
          | .ok inner_evaled =>
            ((Expression.evaluate ops gp st fuel inner_evaled).map
              Cow.into_owned).map Cow.Owned
          | .error s => .error (.SyntaxError s)
        | v => .error (.UnexpectedType .Str v.get_type)
    | .FunctionCall name args => (st.call_function name args).map Cow.Owned

/-- Expression::try_bool, embedded from src/expression.rs lines 92 to 103. -/
def Expression.try_bool (ops : ValueOps) (gp : GrammarFn) (st : State)
    (fuel : Nat) (e : Expression) : Except SwError Bool :=
  (Expression.evaluate ops gp st fuel e).bind fun value =>
    match value.value with
    | .Bool x => .ok x
    | _ => .error (.UnexpectedType .Bool value.value.get_type)

/-- Expression::try_int, embedded from src/expression.rs lines 105 to 116. -/
def Expression.try_int (ops : ValueOps) (gp : GrammarFn) (st : State)
    (fuel : Nat) (e : Expression) : Except SwError IntT :=
  (Expression.evaluate ops gp st fuel e).bind fun value =>
    match value.value with
    | .Int x => .ok x
    | _ => .error (.UnexpectedType .Int value.value.get_type)

/-- A pair of values failing any operator method, admitted by the spec. -/
def errOp : Value → Value → Except SwError Value :=
  fun v _ => .error (.UnexpectedType .Int v.get_type)

/-- A concrete ValueOps instance for witnesses: integer addition, every other
method failing with a type mismatch, which the spec admits. -/
def testOps : ValueOps where
  add := fun a b =>
    match a, b with
    | .Int x, .Int y => .ok (.Int (x + y))
    | v, _ => .error (.UnexpectedType .Int v.get_type)
  subtract := errOp
  multiply := errOp
  divide := errOp
  less_than := errOp
  greater_than := errOp
  less_than_equal := errOp
  greater_than_equal := errOp
  shift_left := errOp
  shift_right := errOp
  and := errOp
  or := errOp
  modulus := errOp

/-- A concrete parser instance for witnesses: recognises the single source
text "1 + 2" and rejects everything else. -/
def gp0 : GrammarFn := fun s =>
  if s = "1 + 2" then
    .ok (.OpExp (.Value (.Int 1)) .Add (.Value (.Int 2)))
  else
    .error ("expected expression, got " ++ s)

/-- A state binding nothing: every lookup fails with the environment's own
error. -/
def emptyState : State where
  get := fun name => .error (.UndefinedVariable name)
  list_index := fun name _ => .error (.UndefinedVariable name)
  call_function := fun name _ => .error (.UnknownFunction name)

/-- A state whose list_index ignores the index expression entirely and
answers 42; spec-conformant, since State owns index handling. -/
def constIndexState : State where
  get := fun name => .error (.UndefinedVariable name)
  list_index := fun _ _ => .ok (.Owned (.Int 42))
  call_function := fun name _ => .error (.UnknownFunction name)

/-- A state binding a 3-element list, a 4-byte string, a 2-byte 1-character
string and an integer, for the ListLength examples. -/
def lenState : State where
  get := fun name =>
    if name = "l" then .ok (.List [.Int 1, .Int 2, .Int 3])
    else if name = "s4" then .ok (.Str "abcd")
    else if name = "acc" then .ok (.Str "é")
    else if name = "i" then .ok (.Int 5)
    else .error (.UndefinedVariable name)
  list_index := fun name _ => .error (.UndefinedVariable name)
  call_function := fun name _ => .error (.UnknownFunction name)

/-- A state with a single function f returning the owned integer 9. -/
def funState : State where
  get := fun name => .error (.UndefinedVariable name)
  list_index := fun name _ => .error (.UndefinedVariable name)
  call_function := fun name _ =>
    if name = "f" then .ok (.Int 9) else .error (.UnknownFunction name)

mutual

/-- Structural comparison of values is reflexive. -/
theorem Value.beq_refl : (v : Value) → Value.beq v v = true
  | .Int _ => by simp [Value.beq]
  | .Bool _ => by simp [Value.beq]
  | .Str _ => by simp [Value.beq]
  | .List l => Value.beqList_refl l

/-- Elementwise structural comparison of value lists is reflexive. -/
theorem Value.beqList_refl : (l : ListT Value) → Value.beqList l l = true
  | [] => rfl
  | x :: xs => by
    simp only [Value.beqList, Bool.and_eq_true]
    exact ⟨Value.beq_refl x, Value.beqList_refl xs⟩

end

/-- Structural comparison of values of different kinds is false. -/
theorem Value.beq_eq_false_of_get_type_ne (a b : Value)
    (h : Value.get_type a ≠ Value.get_type b) : Value.beq a b = false := by
  cases a <;> cases b <;> simp_all [Value.beq, Value.get_type]

/-- A character list is no longer than its UTF-8 byte count. -/
theorem length_le_utf8_go (l : ListT Char) :
    l.length ≤ String.utf8ByteSize.go l := by
  induction l with
  | nil => simp [String.utf8ByteSize.go]
  | cons c cs ih =>
    have hc := Char.utf8Size_pos c
    simp only [String.utf8ByteSize.go, List.length_cons]
    omega

/-- A character list holding a multi-byte character is strictly shorter than
its UTF-8 byte count. -/
theorem length_lt_utf8_go (l : ListT Char)
    (h : ∃ c ∈ l, 1 < c.utf8Size) :
    l.length < String.utf8ByteSize.go l := by
  induction l with
  | nil => simp at h
  | cons c cs ih =>
    simp only [String.utf8ByteSize.go, List.length_cons]
    rcases h with ⟨d, hd, hsize⟩
    rcases List.mem_cons.mp hd with h1 | h2
    · subst h1
      have := length_le_utf8_go cs
      omega
    · have := ih ⟨d, h2, hsize⟩
      have hc := Char.utf8Size_pos c
      omega

/-- C1: for every binary operation and every state, parser and operator
suite, evaluate runs the left operand, then the right operand, with no
short-circuiting for any operator including And and Or, and only then applies
the Value method for the operator, producing an owned value; a failure of the
right operand is returned even when the left operand evaluated to a value
that alone would determine an And/Or result. -/
theorem c1_opexp_strict_left_to_right (ops : ValueOps) (gp : GrammarFn)
    (st : State) (fuel : Nat) (l r : Expression) (op : Operator) :
    Expression.evaluate ops gp st (fuel + 1) (.OpExp l op r)
      = (Expression.evaluate ops gp st fuel l).bind (fun lv =>
          (Expression.evaluate ops gp st fuel r).bind (fun rv =>
            (opApply ops op lv.value rv.value).map Cow.Owned))
    ∧ (∀ lv er, Expression.evaluate ops gp st fuel l = .ok lv →
        Expression.evaluate ops gp st fuel r = .error er →
        Expression.evaluate ops gp st (fuel + 1) (.OpExp l op r) = .error er)
    ∧ (∀ lv rv w, Expression.evaluate ops gp st fuel l = .ok lv →
        Expression.evaluate ops gp st fuel r = .ok rv →
        opApply ops op lv.value rv.value = .ok w →
        Expression.evaluate ops gp st (fuel + 1) (.OpExp l op r)
          = .ok (.Owned w)) := by
  refine ⟨rfl, fun lv er hl hr => ?_, fun lv rv w hl hr hop => ?_⟩
  · simp [Expression.evaluate, hl, hr, Except.bind]
  · simp [Expression.evaluate, hl, hr, hop, Except.bind, Except.map]

/-- C1 witness: with the left operand a false literal and And as the
operator, a failing right operand still decides the outcome, and 1 + 2
computes the owned integer 3. -/
theorem c1_witness :
    Expression.evaluate testOps gp0 emptyState 2
        (.OpExp (.Value (.Bool false)) .And (.Variable "x"))
      = .error (.UndefinedVariable "x")
    ∧ Expression.evaluate testOps gp0 emptyState 2
        (.OpExp (.Value (.Int 1)) .Add (.Value (.Int 2)))
      = .ok (.Owned (.Int 3)) := by
  constructor
  · exact (c1_opexp_strict_left_to_right testOps gp0 emptyState 1
      (.Value (.Bool false)) (.Variable "x") .And).2.1
      (.Borrowed (.Bool false)) (.UndefinedVariable "x") rfl rfl
  · exact (c1_opexp_strict_left_to_right testOps gp0 emptyState 1
      (.Value (.Int 1)) (.Value (.Int 2)) .Add).2.2
      (.Borrowed (.Int 1)) (.Borrowed (.Int 2)) (.Int 3) rfl rfl rfl

/-- C2 (amended): for every ListIndex expression, evaluate passes the name
and the unevaluated index expression straight to State's list_index; the
evaluator itself performs no evaluation of the index, and evaluation of the
index as well as bounds checking and rejection of non-indexable kinds are
State's responsibility. -/
theorem c2_listindex_delegates_unevaluated (ops : ValueOps) (gp : GrammarFn)
    (st : State) (fuel : Nat) (name : String) (e : Expression) :
    Expression.evaluate ops gp st (fuel + 1) (.ListIndex name e)
      = st.list_index name e := rfl

/-- C2 counterexample: a state whose list_index ignores the index expression
is answered as-is; the index expression is an undefined variable whose own
evaluation fails, yet the ListIndex expression succeeds, so evaluate cannot
have evaluated the index expression first. -/
theorem c2_counterexample :
    Expression.evaluate testOps gp0 constIndexState 2
        (.ListIndex "xs" (.Variable "i"))
      = .ok (.Owned (.Int 42))
    ∧ Expression.evaluate testOps gp0 constIndexState 1 (.Variable "i")
      = .error (.UndefinedVariable "i") := ⟨rfl, rfl⟩

/-- C8: for every literal value and any two states, evaluate returns the
embedded value as a borrowed reference, identically for both states, so the
state is never consulted. -/
theorem c8_literal_borrowed_identity (ops : ValueOps) (gp : GrammarFn)
    (st st' : State) (fuel : Nat) (v : Value) :
    Expression.evaluate ops gp st (fuel + 1) (.Value v) = .ok (.Borrowed v)
    ∧ Expression.evaluate ops gp st (fuel + 1) (.Value v)
        = Expression.evaluate ops gp st' (fuel + 1) (.Value v) := ⟨rfl, rfl⟩

/-- C9: errors raised by the State collaborator are propagated unchanged:
a Variable expression returns exactly the error State's get raises, and a
FunctionCall expression passes the unevaluated argument expressions to
State's call_function, returns its successful result as an owned value, and
propagates its error unchanged. -/
theorem c9_state_errors_propagate (ops : ValueOps) (gp : GrammarFn)
    (st : State) (fuel : Nat) (name : String) (args : List Expression)
    (err : SwError) (v : Value) :
    (st.get name = .error err →
      Expression.evaluate ops gp st (fuel + 1) (.Variable name) = .error err)
    ∧ Expression.evaluate ops gp st (fuel + 1) (.FunctionCall name args)
        = (st.call_function name args).map Cow.Owned
    ∧ (st.call_function name args = .ok v →
        Expression.evaluate ops gp st (fuel + 1) (.FunctionCall name args)
          = .ok (.Owned v))
    ∧ (st.call_function name args = .error err →
        Expression.evaluate ops gp st (fuel + 1) (.FunctionCall name args)
          = .error err) := by
  refine ⟨fun h => ?_, rfl, fun h => ?_, fun h => ?_⟩
  · simp [Expression.evaluate, h, Except.map]
  · simp [Expression.evaluate, h, Except.map]
  · simp [Expression.evaluate, h, Except.map]

/-- C9 witness: the empty state's own errors for an undefined variable and
an unknown function surface unchanged, and a state with a function f
returning 9 yields the owned integer 9. -/
theorem c9_witness :
    Expression.evaluate testOps gp0 emptyState 1 (.Variable "y")
      = .error (.UndefinedVariable "y")
    ∧ Expression.evaluate testOps gp0 emptyState 1 (.FunctionCall "g" [])
      = .error (.UnknownFunction "g")
    ∧ Expression.evaluate testOps gp0 funState 1 (.FunctionCall "f" [])
      = .ok (.Owned (.Int 9)) := by
  refine ⟨?_, ?_, ?_⟩
  · exact (c9_state_errors_propagate testOps gp0 emptyState 0 "y" []
      (.UndefinedVariable "y") (.Int 0)).1 rfl
  · exact (c9_state_errors_propagate testOps gp0 emptyState 0 "g" []
      (.UnknownFunction "g") (.Int 0)).2.2.2 rfl
  · exact (c9_state_errors_propagate testOps gp0 funState 0 "f" []
      .StackOverflow (.Int 9)).2.2.1 rfl

/-- C3 (amended): for a variable bound in the state, ListLength looks the
name up directly; a list yields its element count as an integer, a string
yields the byte length of its UTF-8 encoding as an integer, and any other
kind fails with IndexUnindexable naming the actual kind. -/
theorem c3_listlength_kinds (ops : ValueOps) (gp : GrammarFn) (st : State)
    (fuel : Nat) (name : String) :
    (∀ l, st.get name = .ok (.List l) →
      Expression.evaluate ops gp st (fuel + 1) (.ListLength name)
        = .ok (.Owned (.Int (Int.ofNat l.length))))
    ∧ (∀ s, st.get name = .ok (.Str s) →
      Expression.evaluate ops gp st (fuel + 1) (.ListLength name)
        = .ok (.Owned (.Int (Int.ofNat s.utf8ByteSize))))
    ∧ (∀ v, st.get name = .ok v →
        Value.get_type v ≠ .List → Value.get_type v ≠ .Str →
      Expression.evaluate ops gp st (fuel + 1) (.ListLength name)
        = .error (.IndexUnindexable (Value.get_type v))) := by
  refine ⟨fun l h => ?_, fun s h => ?_, fun v h hL hS => ?_⟩
  · simp [Expression.evaluate, h, Except.bind]
  · simp [Expression.evaluate, h, Except.bind]
  · cases v with
    | Int i => simp [Expression.evaluate, h, Except.bind, Value.get_type]
    | Bool b => simp [Expression.evaluate, h, Except.bind, Value.get_type]
    | Str s => exact absurd rfl hS
    | List l => exact absurd rfl hL

/-- C3 counterexample: the state binds acc to the one-character string
"é", whose UTF-8 encoding is two bytes; ListLength answers the integer 2,
not the character count 1 the claim requires. -/
theorem c3_counterexample :
    Expression.evaluate testOps gp0 lenState 1 (.ListLength "acc")
      = .ok (.Owned (.Int 2))
    ∧ Int.ofNat (String.length "é") = 1
    ∧ Expression.evaluate testOps gp0 lenState 1 (.ListLength "acc")
      ≠ .ok (.Owned (.Int (Int.ofNat (String.length "é")))) := by
  refine ⟨rfl, rfl, fun h => ?_⟩
  rw [show Expression.evaluate testOps gp0 lenState 1 (.ListLength "acc")
    = .ok (.Owned (.Int 2)) from rfl] at h
  have hlen : String.length "é" = 1 := rfl
  rw [hlen] at h
  simp at h

/-- C3 witness: a 3-element list yields 3, the 4-byte string "abcd" yields
4, and an integer binding fails with IndexUnindexable Int. -/
theorem c3_witness :
    Expression.evaluate testOps gp0 lenState 1 (.ListLength "l")
      = .ok (.Owned (.Int 3))
    ∧ Expression.evaluate testOps gp0 lenState 1 (.ListLength "s4")
      = .ok (.Owned (.Int 4))
    ∧ Expression.evaluate testOps gp0 lenState 1 (.ListLength "i")
      = .error (.IndexUnindexable .Int) := by
  refine ⟨?_, ?_, ?_⟩
  · exact (c3_listlength_kinds testOps gp0 lenState 0 "l").1
      [.Int 1, .Int 2, .Int 3] rfl
  · exact (c3_listlength_kinds testOps gp0 lenState 0 "s4").2.1 "abcd" rfl
  · exact (c3_listlength_kinds testOps gp0 lenState 0 "i").2.2 (.Int 5) rfl
      (by decide) (by decide)

/-- C4: for every Eval expression, parser, operator suite and state: a
non-string inner value fails with UnexpectedType expecting Str and naming
the actual kind; a string the parser rejects fails with SyntaxError wrapping
the parser's message verbatim; and on parse success the fresh tree is
evaluated against the same state, the result converted to an owned value. -/
theorem c4_eval_reentrant (ops : ValueOps) (gp : GrammarFn) (st : State)
    (fuel : Nat) (e : Expression) (v : Cow) :
    (Expression.evaluate ops gp st fuel e = .ok v →
      (∀ s, Cow.value v ≠ .Str s) →
      Expression.evaluate ops gp st (fuel + 1) (.Eval e)
        = .error (.UnexpectedType .Str (Value.get_type (Cow.value v))))
    ∧ (∀ s msg, Expression.evaluate ops gp st fuel e = .ok v →
        Cow.value v = .Str s → gp s = .error msg →
        Expression.evaluate ops gp st (fuel + 1) (.Eval e)
          = .error (.SyntaxError msg))
    ∧ (∀ s tree, Expression.evaluate ops gp st fuel e = .ok v →
        Cow.value v = .Str s → gp s = .ok tree →
        Expression.evaluate ops gp st (fuel + 1) (.Eval e)
          = ((Expression.evaluate ops gp st fuel tree).map
              Cow.into_owned).map Cow.Owned) := by
  refine ⟨fun hv hne => ?_, fun s msg hv hs hp => ?_,
    fun s tree hv hs hp => ?_⟩
  · cases hval : Cow.value v with
    | Str s => exact absurd hval (hne s)
    | Int i => simp [Expression.evaluate, hv, hval, Except.bind]
    | Bool b => simp [Expression.evaluate, hv, hval, Except.bind]
    | List l => simp [Expression.evaluate, hv, hval, Except.bind]
  · simp [Expression.evaluate, hv, hs, hp, Except.bind]
  · simp [Expression.evaluate, hv, hs, hp, Except.bind]

/-- C4 witness: with a parser recognising "1 + 2" and integer addition,
Eval of the literal string "1 + 2" computes the owned integer 3, Eval of the
literal integer 5 fails expecting Str, and Eval of the rejected text "1 +"
fails with the parser's message wrapped in SyntaxError. -/
theorem c4_witness :
    Expression.evaluate testOps gp0 emptyState 3 (.Eval (.Value (.Str "1 + 2")))
      = .ok (.Owned (.Int 3))
    ∧ Expression.evaluate testOps gp0 emptyState 2 (.Eval (.Value (.Int 5)))
      = .error (.UnexpectedType .Str .Int)
    ∧ Expression.evaluate testOps gp0 emptyState 2 (.Eval (.Value (.Str "1 +")))
      = .error (.SyntaxError ("expected expression, got " ++ "1 +")) := by
  refine ⟨?_, ?_, ?_⟩
  · exact ((c4_eval_reentrant testOps gp0 emptyState 2 (.Value (.Str "1 + 2"))
      (.Borrowed (.Str "1 + 2"))).2.2 "1 + 2"
      (.OpExp (.Value (.Int 1)) .Add (.Value (.Int 2))) rfl rfl rfl).trans rfl
  · exact (c4_eval_reentrant testOps gp0 emptyState 1 (.Value (.Int 5))
      (.Borrowed (.Int 5))).1 rfl (fun s h => Value.noConfusion h)
  · exact (c4_eval_reentrant testOps gp0 emptyState 1 (.Value (.Str "1 +"))
      (.Borrowed (.Str "1 +"))).2.1 "1 +"
      ("expected expression, got " ++ "1 +") rfl rfl rfl

/-- C5: the Equality operator never fails: whenever both operands evaluate
successfully, the result is an owned boolean, true under structural equality
of the two values (hence reflexive) and false whenever their kinds differ. -/
theorem c5_equality_total_reflexive (ops : ValueOps) (gp : GrammarFn)
    (st : State) (fuel : Nat) (l r : Expression) (lv rv : Cow)
    (hl : Expression.evaluate ops gp st fuel l = .ok lv)
    (hr : Expression.evaluate ops gp st fuel r = .ok rv) :
    Expression.evaluate ops gp st (fuel + 1) (.OpExp l .Equality r)
      = .ok (.Owned (.Bool (Value.beq (Cow.value lv) (Cow.value rv))))
    ∧ (Cow.value lv = Cow.value rv →
        Value.beq (Cow.value lv) (Cow.value rv) = true)
    ∧ (Value.get_type (Cow.value lv) ≠ Value.get_type (Cow.value rv) →
        Value.beq (Cow.value lv) (Cow.value rv) = false) := by
  refine ⟨?_, fun h => ?_, fun h => ?_⟩
  · simp [Expression.evaluate, hl, hr, Except.bind, opApply, Value.equals,
      Except.map]
  · rw [h]
    exact Value.beq_refl _
  · exact Value.beq_eq_false_of_get_type_ne _ _ h

/-- C5 witness: comparing the string literal "a" with itself yields the
owned boolean true, and comparing an integer with a boolean yields false. -/
theorem c5_witness :
    Expression.evaluate testOps gp0 emptyState 2
        (.OpExp (.Value (.Str "a")) .Equality (.Value (.Str "a")))
      = .ok (.Owned (.Bool true))
    ∧ Expression.evaluate testOps gp0 emptyState 2
        (.OpExp (.Value (.Int 1)) .Equality (.Value (.Bool true)))
      = .ok (.Owned (.Bool false)) := by
  constructor
  · exact ((c5_equality_total_reflexive testOps gp0 emptyState 1
      (.Value (.Str "a")) (.Value (.Str "a")) (.Borrowed (.Str "a"))
      (.Borrowed (.Str "a")) rfl rfl).1).trans rfl
  · exact ((c5_equality_total_reflexive testOps gp0 emptyState 1
      (.Value (.Int 1)) (.Value (.Bool true)) (.Borrowed (.Int 1))
      (.Borrowed (.Bool true)) rfl rfl).1).trans rfl

/-- C6: try_bool evaluates the expression and returns the underlying boolean
when the result is of boolean kind, failing with UnexpectedType expecting
Bool and naming the observed kind otherwise; try_int likewise for the
integer kind. -/
theorem c6_try_helpers (ops : ValueOps) (gp : GrammarFn) (st : State)
    (fuel : Nat) (e : Expression) (v : Cow)
    (h : Expression.evaluate ops gp st fuel e = .ok v) :
    (∀ b, Cow.value v = .Bool b →
      Expression.try_bool ops gp st fuel e = .ok b)
    ∧ ((∀ b, Cow.value v ≠ .Bool b) →
      Expression.try_bool ops gp st fuel e
        = .error (.UnexpectedType .Bool (Value.get_type (Cow.value v))))
    ∧ (∀ i, Cow.value v = .Int i →
      Expression.try_int ops gp st fuel e = .ok i)
    ∧ ((∀ i, Cow.value v ≠ .Int i) →
      Expression.try_int ops gp st fuel e
        = .error (.UnexpectedType .Int (Value.get_type (Cow.value v)))) := by
  refine ⟨fun b hb => ?_, fun hne => ?_, fun i hi => ?_, fun hne => ?_⟩
  · simp [Expression.try_bool, h, hb, Except.bind]
  · cases hval : Cow.value v with
    | Bool b => exact absurd hval (hne b)
    | Int i => simp [Expression.try_bool, h, hval, Except.bind]
    | Str s => simp [Expression.try_bool, h, hval, Except.bind]
    | List l => simp [Expression.try_bool, h, hval, Except.bind]
  · simp [Expression.try_int, h, hi, Except.bind]
  · cases hval : Cow.value v with
    | Int i => exact absurd hval (hne i)
    | Bool b => simp [Expression.try_int, h, hval, Except.bind]
    | Str s => simp [Expression.try_int, h, hval, Except.bind]
    | List l => simp [Expression.try_int, h, hval, Except.bind]

/-- C6 witness: try_int returns 7 on a literal 7 and fails with
UnexpectedType expecting Int on a boolean; try_bool returns true on a
literal true and fails with UnexpectedType expecting Bool on the 7. -/
theorem c6_witness :
    Expression.try_int testOps gp0 emptyState 1 (.Value (.Int 7)) = .ok 7
    ∧ Expression.try_int testOps gp0 emptyState 1 (.Value (.Bool true))
      = .error (.UnexpectedType .Int .Bool)
    ∧ Expression.try_bool testOps gp0 emptyState 1 (.Value (.Bool true))
      = .ok true
    ∧ Expression.try_bool testOps gp0 emptyState 1 (.Value (.Int 7))
      = .error (.UnexpectedType .Bool .Int) := by
  refine ⟨?_, ?_, ?_, ?_⟩
  · exact (c6_try_helpers testOps gp0 emptyState 1 (.Value (.Int 7))
      (.Borrowed (.Int 7)) rfl).2.2.1 7 rfl
  · exact (c6_try_helpers testOps gp0 emptyState 1 (.Value (.Bool true))
      (.Borrowed (.Bool true)) rfl).2.2.2 (fun i hi => Value.noConfusion hi)
  · exact (c6_try_helpers testOps gp0 emptyState 1 (.Value (.Bool true))
      (.Borrowed (.Bool true)) rfl).1 true rfl
  · exact (c6_try_helpers testOps gp0 emptyState 1 (.Value (.Int 7))
      (.Borrowed (.Int 7)) rfl).2.1 (fun b hb => Value.noConfusion hb)

/-- C7: Not is an involution on booleans: a doubly negated boolean literal
evaluates back to the same owned boolean, while Not of an expression whose
value is not of boolean kind fails with UnexpectedType expecting Bool and
naming the actual kind. -/
theorem c7_not_involution (ops : ValueOps) (gp : GrammarFn) (st : State)
    (fuel : Nat) (b : Bool) (e : Expression) (v : Cow) :
    Expression.evaluate ops gp st (fuel + 3) (.Not (.Not (.Value (.Bool b))))
      = .ok (.Owned (.Bool b))
    ∧ (Expression.evaluate ops gp st fuel e = .ok v →
        (∀ c, Cow.value v ≠ .Bool c) →
        Expression.evaluate ops gp st (fuel + 1) (.Not e)
          = .error (.UnexpectedType .Bool (Value.get_type (Cow.value v)))) := by
  constructor
  · have hstep : Expression.evaluate ops gp st (fuel + 3)
        (.Not (.Not (.Value (.Bool b)))) = .ok (.Owned (.Bool (!!b))) := rfl
    rw [hstep, Bool.not_not]
  · intro hv hne
    cases hval : Cow.value v with
    | Bool c => exact absurd hval (hne c)
    | Int i =>
      simp [Expression.evaluate, hv, hval, Value.not, Except.bind, Except.map]
    | Str s =>
      simp [Expression.evaluate, hv, hval, Value.not, Except.bind, Except.map]
    | List l =>
      simp [Expression.evaluate, hv, hval, Value.not, Except.bind, Except.map]

/-- C7 witness: double negation of the literal true evaluates to the owned
boolean true, and Not applied to the integer literal 0 fails with
UnexpectedType expecting Bool, actual Int. -/
theorem c7_witness :
    Expression.evaluate testOps gp0 emptyState 3
        (.Not (.Not (.Value (.Bool true))))
      = .ok (.Owned (.Bool true))
    ∧ Expression.evaluate testOps gp0 emptyState 2 (.Not (.Value (.Int 0)))
      = .error (.UnexpectedType .Bool .Int) := by
  constructor
  · exact (c7_not_involution testOps gp0 emptyState 0 true
      (.Value (.Int 0)) (.Borrowed (.Int 0))).1
  · exact (c7_not_involution testOps gp0 emptyState 1 true
      (.Value (.Int 0)) (.Borrowed (.Int 0))).2 rfl
      (fun c hc => Value.noConfusion hc)

/-- C10: for a variable bound to a string, ListLength returns the byte
length of the string's UTF-8 encoding as an integer, and for a string
containing a multi-byte character that byte length strictly exceeds the
character count. -/
theorem c10_listlength_utf8_bytes (ops : ValueOps) (gp : GrammarFn)
    (st : State) (fuel : Nat) (name : String) (s : String)
    (h : st.get name = .ok (.Str s)) :
    Expression.evaluate ops gp st (fuel + 1) (.ListLength name)
      = .ok (.Owned (.Int (Int.ofNat s.utf8ByteSize)))
    ∧ ((∃ c ∈ s.data, 1 < c.utf8Size) → s.length < s.utf8ByteSize) := by
  constructor
  · simp [Expression.evaluate, h, Except.bind]
  · intro hm
    exact length_lt_utf8_go s.data hm

/-- C10 witness: the one-character string "é" is bound to acc; ListLength
answers the integer 2, the UTF-8 byte count, which strictly exceeds the
character count 1. -/
theorem c10_witness :
    Expression.evaluate testOps gp0 lenState 1 (.ListLength "acc")
      = .ok (.Owned (.Int 2))
    ∧ String.length "é" < String.utf8ByteSize "é" := by
  constructor
  · exact ((c10_listlength_utf8_bytes testOps gp0 lenState 0 "acc" "é"
      rfl).1).trans rfl
  · exact (c10_listlength_utf8_bytes testOps gp0 lenState 0 "acc" "é"
      rfl).2 ⟨'é', by decide, by decide⟩

end Schwift
